import Mathlib

/-!
# Verification of the masonry-rs widget-toolkit core

A shallow embedding, in Lean 4, of the parts of the `masonry-rs` repository
covered by the specification: the `Spinner` leaf widget (`src/widget/spinner.rs`),
the `WebImage` composite widget (`src/widget/web_image.rs`), the external event
queue (`src/ext_event.rs`) and the test harness (`src/testing/harness.rs`).

Machine floats (`f64`) from the source are modelled as rationals (`ℚ`), with a
dedicated `Dim` type for possibly-infinite layout dimensions (`f64::INFINITY`
marks an unbounded box constraint). Opaque payloads (colors, selectors, URLs,
command payloads) are modelled as natural numbers. Fallible or panicking code
paths are made explicit in result types.
-/

namespace Masonry

/-- An image buffer (`ImageBuf`), kept abstract: only its dimensions matter for
the properties below. `ImageBuf::empty()` is the 0×0 buffer. -/
structure ImageBuf where
  width : Nat
  height : Nat
  deriving Repr, DecidableEq

/-- The empty fallback image, `ImageBuf::empty()`. -/
def ImageBuf.empty : ImageBuf := { width := 0, height := 0 }

/-- The payload of a `PromiseResult` event: the token of the originating
background computation plus the produced value. -/
structure PromiseResultData where
  token : Nat
  payload : ImageBuf
  deriving Repr, DecidableEq

/-- The events relevant to the widgets under study, from masonry's `Event`
enum: `AnimFrame` carries a nanosecond interval (`u64`), `PromiseResult`
carries a resolved background computation; the remaining constructors stand
for the other event kinds, whose payloads the studied widgets ignore. -/
inductive Event where
  | animFrame (interval_ns : Nat)
  | promiseResult (result : PromiseResultData)
  | mouseMove
  | keyDown
  | windowConnected
  | targetedCommand (cmd : Nat)
  deriving Repr, DecidableEq

/-- A layout dimension: a finite length, or positive infinity
(`f64::INFINITY`, which druid uses to mark an unbounded constraint). -/
inductive Dim where
  | fin (x : ℚ)
  | inf
  deriving Repr, DecidableEq

/-- Finiteness test on a layout dimension, `f64::is_finite`. -/
def Dim.is_finite : Dim → Bool
  | .fin _ => true
  | .inf => false

/-- Clamping `x.clamp(lo, hi)` for a rational `x`, lower bound `lo` and
possibly infinite upper bound `hi` (as in `BoxConstraints::constrain`):
`min (max x lo) hi`. -/
def Dim.clamp (lo : ℚ) (hi : Dim) (x : ℚ) : ℚ :=
  match hi with
  | .fin h => min (max x lo) h
  | .inf => max x lo

/-- Comparison `x ≤ d` where `d` is a possibly infinite dimension. -/
def Dim.leOf (x : ℚ) (d : Dim) : Prop :=
  match d with
  | .fin y => x ≤ y
  | .inf => True

instance (x : ℚ) (d : Dim) : Decidable (Dim.leOf x d) :=
  match d with
  | .fin y => inferInstanceAs (Decidable (x ≤ y))
  | .inf => Decidable.isTrue trivial

/-- A size, with possibly infinite components (so that it can also hold the
`max` of unbounded constraints). -/
structure Size where
  width : Dim
  height : Dim
  deriving Repr, DecidableEq

/-- Box constraints (druid `BoxConstraints`): a minimum size (always finite)
and a maximum size whose components may be infinite (= unbounded). The type
is a dependency of this repository; its accessors below follow druid's
documented semantics, which `Spinner::layout` relies on. -/
structure BoxConstraints where
  min_width : ℚ
  min_height : ℚ
  max_width : Dim
  max_height : Dim
  deriving Repr, DecidableEq

/-- Model of `BoxConstraints::is_width_bounded`: the max width is finite. -/
def BoxConstraints.is_width_bounded (bc : BoxConstraints) : Bool :=
  bc.max_width.is_finite

/-- Model of `BoxConstraints::is_height_bounded`: the max height is finite. -/
def BoxConstraints.is_height_bounded (bc : BoxConstraints) : Bool :=
  bc.max_height.is_finite

/-- Model of `BoxConstraints::max()`. -/
def BoxConstraints.max (bc : BoxConstraints) : Size :=
  { width := bc.max_width, height := bc.max_height }

/-- Model of `BoxConstraints::constrain`: clamp a (finite) candidate size between the
minimum and maximum sizes. -/
def BoxConstraints.constrain (bc : BoxConstraints) (w h : ℚ) : Size :=
  { width := Dim.fin (Dim.clamp bc.min_width bc.max_width w),
    height := Dim.fin (Dim.clamp bc.min_height bc.max_height h) }

/-- A size lies within the constraints: both components are finite, at least
the minimum and at most the (possibly infinite) maximum. -/
def BoxConstraints.fits (bc : BoxConstraints) (s : Size) : Prop :=
  ∃ w h : ℚ, s.width = Dim.fin w ∧ s.height = Dim.fin h ∧
    bc.min_width ≤ w ∧ bc.min_height ≤ h ∧
    Dim.leOf w bc.max_width ∧ Dim.leOf h bc.max_height

/-- The environment, reduced to the single theme value `Spinner::layout`
reads: `theme::BASIC_WIDGET_HEIGHT`. -/
structure Env where
  basic_widget_height : ℚ
  deriving Repr, DecidableEq

/-- The `Spinner` widget state: the animation phase `t` and its (opaque,
resolved) color. -/
structure Spinner where
  t : ℚ
  color : Nat
  deriving Repr, DecidableEq

/-- Model of `Spinner::default()`: phase `0.0`, themed text color (opaque here). -/
def Spinner.default : Spinner := { t := 0, color := 0 }

/-- Model of `Spinner::layout` (src/widget/spinner.rs lines 91–104): if both the width
and the height of the box constraints are bounded, return `bc.max()`;
otherwise return the themed default square, constrained. -/
def Spinner.layout (bc : BoxConstraints) (env : Env) : Size :=
  if bc.is_width_bounded && bc.is_height_bounded then
    bc.max
  else
    bc.constrain env.basic_widget_height env.basic_widget_height

/-- Claim C1 as stated, at one input: the layout is the constrained themed
default square when both dimensions are unbounded, and is the constraint's
maximum size whenever at least one dimension is bounded. -/
def spinnerLayoutClaimC1 (bc : BoxConstraints) (env : Env) : Prop :=
  (bc.is_width_bounded = false ∧ bc.is_height_bounded = false →
      Spinner.layout bc env
        = bc.constrain env.basic_widget_height env.basic_widget_height)
  ∧ (bc.is_width_bounded = true ∨ bc.is_height_bounded = true →
      Spinner.layout bc env = bc.max)

/-- Model of `Spinner::on_event` (src/widget/spinner.rs lines 69–79): an `AnimFrame`
advances the phase by `interval * 1e-9` and resets it to `0.0` once it
reaches `1.0`; every other event leaves the widget unchanged. (The
`request_anim_frame`/`request_paint` context calls do not affect widget
state.) -/
def Spinner.on_event (s : Spinner) (e : Event) : Spinner :=
  match e with
  | .animFrame interval =>
      let t' := s.t + (interval : ℚ) / 1000000000
      if 1 ≤ t' then { s with t := 0 } else { s with t := t' }
  | _ => s

/-! ## External event queue (`src/ext_event.rs`) -/

/-- Model of `ExtMessage` (src/ext_event.rs lines 17–20): a targeted command (selector
symbol, boxed payload, target — all opaque here) or a promise result
addressed to a widget in a window. -/
inductive ExtMessage where
  | command (selector : Nat) (payload : Nat) (target : Nat)
  | promise (result : PromiseResultData) (widget_id : Nat) (window_id : Nat)
  deriving Repr, DecidableEq

/-- The poison state of the two mutexes an `ExtEventSink` locks: the shared
wake-handle lock and the shared queue lock. A mutex is poisoned when a prior
panic occurred while it was held. -/
structure SinkLocks where
  handle_poisoned : Bool
  queue_poisoned : Bool
  deriving Repr, DecidableEq

/-- The observable outcome of one `submit_command`/`resolve_promise` call:
a panic (Rust `unwrap()` on a poisoned lock), an `Err(ExtEventError)` return,
or an `Ok(())` return together with the queue contents afterwards. Blocking
lock acquisition cannot fail from contention, so no such outcome exists. -/
inductive SubmitOutcome where
  | panicked
  | err
  | ok (queue : List ExtMessage)
  deriving Repr, DecidableEq

/-- Model of `ExtEventSink::submit_command` (src/ext_event.rs lines 90–106):
`self.handle.lock().unwrap()` panics if the handle lock is poisoned (the
best-effort `schedule_idle` wake does not change the queue); then
`self.queue.lock().map_err(|_| ExtEventError)?` returns `Err` if the queue
lock is poisoned; otherwise the command is pushed at the back and `Ok(())`
is returned. -/
def ExtEventSink.submit_command (locks : SinkLocks) (queue : List ExtMessage)
    (selector payload target : Nat) : SubmitOutcome :=
  if locks.handle_poisoned then SubmitOutcome.panicked
  else if locks.queue_poisoned then SubmitOutcome.err
  else SubmitOutcome.ok (queue ++ [ExtMessage.command selector payload target])

/-- Model of `ExtEventSink::resolve_promise` (src/ext_event.rs lines 109–123): same
lock discipline as `submit_command`, pushing a promise message. -/
def ExtEventSink.resolve_promise (locks : SinkLocks) (queue : List ExtMessage)
    (result : PromiseResultData) (widget_id window_id : Nat) : SubmitOutcome :=
  if locks.handle_poisoned then SubmitOutcome.panicked
  else if locks.queue_poisoned then SubmitOutcome.err
  else SubmitOutcome.ok (queue ++ [ExtMessage.promise result widget_id window_id])

/-- Claim C2 as stated, at one input: the call returns `Err` iff a lock it
takes is poisoned, and in every other case returns `Ok` with the message
appended to the queue. -/
def extSubmitClaimC2 (locks : SinkLocks) (queue : List ExtMessage)
    (selector payload target : Nat) : Prop :=
  (ExtEventSink.submit_command locks queue selector payload target = SubmitOutcome.err
      ↔ (locks.handle_poisoned = true ∨ locks.queue_poisoned = true))
  ∧ (locks.handle_poisoned = false ∧ locks.queue_poisoned = false →
      ExtEventSink.submit_command locks queue selector payload target
        = SubmitOutcome.ok (queue ++ [ExtMessage.command selector payload target]))

/-- Model of `ExtEventQueue::recv` (src/ext_event.rs lines 73–75): pop the front of
the shared FIFO queue, returning the message (if any) and the remaining
queue. -/
def ExtEventQueue.recv (queue : List ExtMessage) :
    Option ExtMessage × List ExtMessage :=
  match queue with
  | [] => (none, [])
  | m :: rest => (some m, rest)

/-- Repeatedly `recv` until the queue reports empty, collecting the received
messages in order. -/
def ExtEventQueue.drain_all : List ExtMessage → List ExtMessage
  | [] => []
  | m :: rest => m :: ExtEventQueue.drain_all rest

/-! ## Test harness (`src/testing/harness.rs`) -/

/-- The command-drain loop of `Harness::post_event_stuff` (lines 152–168),
one claim at a time: pop the front command and re-dispatch it as a synthetic
`Event::Internal(InternalEvent::TargetedCommand(..))` event; handling it may
enqueue further commands at the back (`dispatch c` is the list of commands
the widget tree enqueues while handling `c`). The loop in the source has no
iteration cap, so termination is observed through explicit fuel: the result
is the FIFO trace of dispatched commands if the queue empties within `fuel`
iterations, and `none` if the fuel runs out first. -/
def Harness.drain_commands (dispatch : Nat → List Nat) :
    List Nat → Nat → Option (List Nat)
  | [], _ => some []
  | _ :: _, 0 => none
  | c :: rest, fuel + 1 =>
      (Harness.drain_commands dispatch (rest ++ dispatch c) fuel).map
        (fun tr => c :: tr)

/-- Claim C3's termination component, at one input: the drain loop always
finishes (drains the queue to empty within some number of iterations) — as a
"sane iteration cap that catches runaway command feedback loops" would
guarantee. -/
def harnessDrainClaimC3 (dispatch : Nat → List Nat) (queue : List Nat) : Prop :=
  ∃ fuel, (Harness.drain_commands dispatch queue fuel).isSome = true

/-- Per-node widget state flags (the fields of `WidgetState` the claims are
about). -/
structure WState where
  needs_layout : Bool
  needs_paint : Bool
  children_changed : Bool
  deriving Repr, DecidableEq

/-- Modelled from the spec: `WidgetState::new` (the widget-state module is
not under src/). Per §8, a newly constructed widget's `children_changed`
flag is set; the fresh node also still needs its first layout and paint. -/
def WidgetState.new : WState :=
  { needs_layout := true, needs_paint := true, children_changed := true }

/-- A widget tree: a state record and an ordered list of child subtrees. -/
inductive WidgetTree where
  | node (state : WState) (children : List WidgetTree)

/-- The shape of a widget tree (which widgets exist, ignoring state). -/
inductive TreeShape where
  | node (children : List TreeShape)

mutual

/-- Build a widget tree of the given shape out of newly constructed widgets:
every node carries `WidgetState.new`. -/
def buildFresh : TreeShape → WidgetTree
  | .node cs => WidgetTree.node WidgetState.new (buildFreshList cs)

def buildFreshList : List TreeShape → List WidgetTree
  | [] => []
  | t :: ts => buildFresh t :: buildFreshList ts

end

mutual

/-- Model of `Harness::inspect_widgets` (src/testing/harness.rs lines 361–373),
with the per-widget assertion returned as a boolean: check the node itself,
then recurse into its children in order. -/
def Harness.inspect_widgets (f : WState → Bool) : WidgetTree → Bool
  | .node st cs => f st && Harness.inspect_widgets_list f cs

def Harness.inspect_widgets_list (f : WState → Bool) : List WidgetTree → Bool
  | [] => true
  | t :: ts => Harness.inspect_widgets f t && Harness.inspect_widgets_list f ts

end

/-- The mock application state threaded through `Harness::edit_root_widget`:
the root's state record, the state records of the root's descendants (as a
flat list — tree structure is irrelevant to the claims below), the command
queue, and whether the window's invalid region has been set to the full
window. -/
structure AppState where
  root : WState
  child_states : List WState
  command_queue : List Nat
  invalid_region_full : Bool
  deriving Repr, DecidableEq

/-- A primitive mutation performed through the root-level `WidgetMut` inside
an `edit_root_widget` closure: flag a descendant as needing layout or paint
(what concrete `WidgetMut` setters do), or push a command. -/
inductive EditOp where
  | set_child_needs_layout (i : Nat)
  | set_child_needs_paint (i : Nat)
  | submit_cmd (c : Nat)
  deriving Repr, DecidableEq

/-- Apply one closure mutation to the mock application state. -/
def applyEditOp (st : AppState) : EditOp → AppState
  | .set_child_needs_layout i =>
      { st with child_states :=
          st.child_states.mapIdx (fun j s => if j = i then { s with needs_layout := true } else s) }
  | .set_child_needs_paint i =>
      { st with child_states :=
          st.child_states.mapIdx (fun j s => if j = i then { s with needs_paint := true } else s) }
  | .submit_cmd c =>
      { st with command_queue := st.command_queue ++ [c] }

/-- Modelled from the spec: `WindowRoot::post_event_processing` (the window
module is not under src/). Per §3 and §4.3, it ORs every descendant's dirty
flags into the root's state record, so that a localized change is visible at
the root. -/
def WindowRoot.post_event_processing (st : AppState) : AppState :=
  { st with root :=
      { needs_layout := st.root.needs_layout || st.child_states.any (fun s => s.needs_layout),
        needs_paint := st.root.needs_paint || st.child_states.any (fun s => s.needs_paint),
        children_changed := st.root.children_changed || st.child_states.any (fun s => s.children_changed) } }

/-- Modelled from the spec: `WindowRoot::layout` (not under src/). Per §4.2,
the layout pass re-visits every subtree whose `needs_layout` flag is set and
clears the flag on return. -/
def WindowRoot.layout (st : AppState) : AppState :=
  { st with
      root := { st.root with needs_layout := false },
      child_states := st.child_states.map (fun s => { s with needs_layout := false }) }

/-- Model of `Harness::post_event_stuff` (src/testing/harness.rs lines 152–168): drain
the command queue to empty (re-dispatching each command; `dispatch` abstracts
the commands the tree enqueues in response, `fuel` observes termination of
the uncapped loop), then, if the root needs layout, run the layout pass and
set the window's invalid region to the full window. -/
def Harness.post_event_stuff (dispatch : Nat → List Nat) (fuel : Nat)
    (st : AppState) : Option AppState :=
  (Harness.drain_commands dispatch st.command_queue fuel).map (fun _ =>
    let st1 := { st with command_queue := [] }
    if st1.root.needs_layout then
      { WindowRoot.layout st1 with invalid_region_full := true }
    else st1)

/-- Model of `Harness::edit_root_widget` (src/testing/harness.rs lines 375–423): run
the closure's mutations through the root-level `WidgetMut`, then — before
returning — run `window.post_event_processing` followed by
`self.post_event_stuff()`. -/
def Harness.edit_root_widget (dispatch : Nat → List Nat) (fuel : Nat)
    (ops : List EditOp) (st : AppState) : Option AppState :=
  Harness.post_event_stuff dispatch fuel
    (WindowRoot.post_event_processing (ops.foldl applyEditOp st))

/-! ## WebImage (`src/widget/web_image.rs`) -/

/-- The `Image` leaf widget holding the loaded content; its fill strategy is
recorded so `Image::new(buf).fill_mode(FillStrat::Contain)` is distinguishable
from other constructions. -/
structure Image where
  image_data : ImageBuf
  fill_contain : Bool
  deriving Repr, DecidableEq

/-- The image built in `WebImage::on_event`:
`Image::new(image_buf).fill_mode(FillStrat::Contain)`. -/
def Image.new_contain (buf : ImageBuf) : Image :=
  { image_data := buf, fill_contain := true }

/-- Modelled from the spec: the `Image` widget's `on_event` (the image widget
module is not under src/). The loaded image is static content: events do not
change it. -/
def Image.on_event (img : Image) (_e : Event) : Image := img

/-- Modelled from the spec: `PromiseToken::empty()` (promise.rs is not under
src/): a sentinel token (tokens are a monotonically increasing counter, so 0
here) that no scheduled computation carries. -/
def PromiseToken.empty : Nat := 0

/-- Modelled from the spec: `PromiseResult::try_get` (promise.rs is not under
src/): per §4.4 the widget acts only if the result's token matches the token
it stored; a mismatch yields nothing. -/
def PromiseResultData.try_get (r : PromiseResultData) (token : Nat) :
    Option ImageBuf :=
  if r.token = token then some r.payload else none

/-- The `WebImage` widget state (src/widget/web_image.rs lines 14–19): the
URL (opaque), the optional loaded inner child, the stored promise token, and
the placeholder child (`WidgetPod<SizedBox>` wrapping a `Spinner`; the
SizedBox wrapper is collapsed onto its spinner content, as the sized-box
module is not under src/). -/
structure WebImage where
  url : Nat
  inner : Option Image
  image_promise : Nat
  placeholder : Spinner
  deriving Repr, DecidableEq

/-- Model of `WebImage::new` (src/widget/web_image.rs lines 21–30): no inner child
yet, the empty promise token, a spinner placeholder. -/
def WebImage.new (url : Nat) : WebImage :=
  { url := url,
    inner := none,
    image_promise := PromiseToken.empty,
    placeholder := Spinner.default }

/-- The observable `EventCtx` effects of one `WebImage::on_event` call:
whether the widget called `ctx.children_changed()` and whether it called
`ctx.skip_child(&mut self.placeholder)`. -/
structure EventCtxFx where
  children_changed : Bool
  skipped_placeholder : Bool
  deriving Repr, DecidableEq

/-- No context effect. -/
def EventCtxFx.none : EventCtxFx :=
  { children_changed := false, skipped_placeholder := false }

/-- The fall-through tail of `WebImage::on_event` (src/widget/web_image.rs
lines 50–54): deliver the event to the inner child if loaded, else to the
placeholder. -/
def WebImage.deliver_to_child (w : WebImage) (e : Event) :
    WebImage × EventCtxFx :=
  match w.inner with
  | some img => ({ w with inner := some (Image.on_event img e) }, EventCtxFx.none)
  | none => ({ w with placeholder := Spinner.on_event w.placeholder e }, EventCtxFx.none)

/-- Model of `WebImage::on_event` (src/widget/web_image.rs lines 35–55): on a
`PromiseResult` whose token matches the stored one, replace `inner` with a
freshly built image widget, flag `children_changed`, skip the placeholder,
and return; otherwise (other events, or a mismatched token) fall through and
deliver the event to the current child. -/
def WebImage.on_event (w : WebImage) (e : Event) : WebImage × EventCtxFx :=
  match e with
  | .promiseResult r =>
      match r.try_get w.image_promise with
      | some image_buf =>
          ({ w with inner := some (Image.new_contain image_buf) },
           { children_changed := true, skipped_placeholder := true })
      | none => WebImage.deliver_to_child w e
  | _ => WebImage.deliver_to_child w e

/-- One child reference reported by `WebImage::children`. -/
inductive ChildRef where
  | image_child (img : Image)
  | placeholder_child (p : Spinner)
  deriving Repr, DecidableEq

/-- Model of `WebImage::children` (src/widget/web_image.rs lines 126–132): exactly one
child — the inner image if loaded, otherwise the placeholder. -/
def WebImage.children (w : WebImage) : List ChildRef :=
  match w.inner with
  | some img => [ChildRef.image_child img]
  | none => [ChildRef.placeholder_child w.placeholder]

/-- Fold a sequence of events through `WebImage::on_event`, keeping the
widget state. -/
def WebImage.run_events (w : WebImage) (es : List Event) : WebImage :=
  es.foldl (fun w e => (WebImage.on_event w e).1) w

/-- The outside world seen by `load_image` in `WebImage::lifecycle`
(src/widget/web_image.rs lines 60–83): the result of
`reqwest::blocking::get(url)`, of `response.bytes()`, and of
`ImageBuf::from_data(&body)`, each of which can fail. Responses and bodies
are opaque. -/
structure FetchWorld where
  get_response : Except Nat Nat
  read_bytes : Nat → Except Nat (List Nat)
  decode : List Nat → Except Nat ImageBuf

/-- Model of `load_image` (src/widget/web_image.rs lines 60–83): try the three
fallible steps in order; on any failure log and return `None`, otherwise
`Some(image_buf)`. -/
def load_image (world : FetchWorld) : Option ImageBuf :=
  match world.get_response with
  | .error _ => none
  | .ok response =>
      match world.read_bytes response with
      | .error _ => none
      | .ok body =>
          match world.decode body with
          | .error _ => none
          | .ok image_buf => some image_buf

/-- The closure scheduled by `WebImage::lifecycle` on `WidgetAdded`
(src/widget/web_image.rs lines 87–91):
`load_image(&url).unwrap_or(ImageBuf::empty())` — a total function into
`ImageBuf`, never an error variant. -/
def WebImage.background_closure (world : FetchWorld) : ImageBuf :=
  (load_image world).getD ImageBuf.empty

/-- The `WidgetAdded` arm of `WebImage::lifecycle` (src/widget/web_image.rs
lines 86–93): store the token returned by `ctx.compute_in_background` and
schedule the background closure. -/
def WebImage.lifecycle_widget_added (w : WebImage) (fresh_token : Nat) :
    WebImage × (FetchWorld → ImageBuf) :=
  ({ w with image_promise := fresh_token }, WebImage.background_closure)

/-! ## Theorems -/

/-- Lower bound of the clamp: the clamped value is at least `lo` whenever
`lo` does not exceed the upper bound. -/
theorem Dim.clamp_lower (lo x : ℚ) (hi : Dim) (h : Dim.leOf lo hi) :
    lo ≤ Dim.clamp lo hi x := by
  cases hi with
  | fin y =>
      simp only [Dim.leOf] at h
      simp only [Dim.clamp, le_min_iff]
      exact ⟨le_max_right x lo, h⟩
  | inf => exact le_max_right x lo

/-- Upper bound of the clamp: the clamped value never exceeds the upper
bound. -/
theorem Dim.clamp_le (lo x : ℚ) (hi : Dim) : Dim.leOf (Dim.clamp lo hi x) hi := by
  cases hi with
  | fin y => exact min_le_right _ _
  | inf => trivial

/-- C1 (amended): `Spinner::layout` returns the constraint maximum exactly
when BOTH dimensions are bounded; in every other case (at least one
dimension unbounded) it returns the themed default square, constrained; and
whenever the constraints are well-formed (min below max) the returned size
satisfies them. -/
theorem spinner_layout_characterization (bc : BoxConstraints) (env : Env)
    (hw : Dim.leOf bc.min_width bc.max_width)
    (hh : Dim.leOf bc.min_height bc.max_height) :
    (bc.is_width_bounded = true ∧ bc.is_height_bounded = true →
        Spinner.layout bc env = bc.max)
    ∧ (¬(bc.is_width_bounded = true ∧ bc.is_height_bounded = true) →
        Spinner.layout bc env
          = bc.constrain env.basic_widget_height env.basic_widget_height)
    ∧ bc.fits (Spinner.layout bc env) := by
  refine ⟨?_, ?_, ?_⟩
  · rintro ⟨h1, h2⟩
    simp [Spinner.layout, h1, h2]
  · intro h
    have hb : (bc.is_width_bounded && bc.is_height_bounded) = false := by
      cases hx : bc.is_width_bounded <;> cases hy : bc.is_height_bounded <;> simp_all
    simp [Spinner.layout, hb]
  · by_cases hb : (bc.is_width_bounded && bc.is_height_bounded) = true
    · obtain ⟨h1, h2⟩ := Bool.and_eq_true_iff.mp hb
      cases hmw : bc.max_width with
      | inf =>
          exfalso
          rw [BoxConstraints.is_width_bounded, hmw] at h1
          simp [Dim.is_finite] at h1
      | fin mw =>
          cases hmh : bc.max_height with
          | inf =>
              exfalso
              rw [BoxConstraints.is_height_bounded, hmh] at h2
              simp [Dim.is_finite] at h2
          | fin mh =>
              refine ⟨mw, mh, ?_, ?_, ?_, ?_, ?_, ?_⟩
              · simp [Spinner.layout, hb, BoxConstraints.max, hmw]
              · simp [Spinner.layout, hb, BoxConstraints.max, hmh]
              · rw [hmw] at hw; exact hw
              · rw [hmh] at hh; exact hh
              · rw [hmw]; simp [Dim.leOf]
              · rw [hmh]; simp [Dim.leOf]
    · refine ⟨Dim.clamp bc.min_width bc.max_width env.basic_widget_height,
        Dim.clamp bc.min_height bc.max_height env.basic_widget_height,
        ?_, ?_, ?_, ?_, ?_, ?_⟩
      · simp [Spinner.layout, hb, BoxConstraints.constrain]
      · simp [Spinner.layout, hb, BoxConstraints.constrain]
      · exact Dim.clamp_lower _ _ _ hw
      · exact Dim.clamp_lower _ _ _ hh
      · exact Dim.clamp_le _ _ _
      · exact Dim.clamp_le _ _ _

/-- C1 counterexample: with width bounded at 100 and height unbounded,
`Spinner::layout` returns the constrained default square `18×18` rather than
the constraint maximum that the claim requires whenever at least one
dimension is bounded. -/
theorem spinner_layout_claim_cex :
    ¬ spinnerLayoutClaimC1 ⟨0, 0, Dim.fin 100, Dim.inf⟩ ⟨18⟩ := by
  unfold spinnerLayoutClaimC1
  decide

/-- Witness for C1: a fully bounded 50×60 constraint, where the layout is
the constraint maximum and fits. -/
theorem spinner_layout_characterization_witness :
    Dim.leOf (0 : ℚ) (Dim.fin 50) ∧ Dim.leOf (0 : ℚ) (Dim.fin 60)
    ∧ ((BoxConstraints.is_width_bounded ⟨0, 0, Dim.fin 50, Dim.fin 60⟩ = true
          ∧ BoxConstraints.is_height_bounded ⟨0, 0, Dim.fin 50, Dim.fin 60⟩ = true →
          Spinner.layout ⟨0, 0, Dim.fin 50, Dim.fin 60⟩ ⟨18⟩
            = BoxConstraints.max ⟨0, 0, Dim.fin 50, Dim.fin 60⟩)
        ∧ (¬(BoxConstraints.is_width_bounded ⟨0, 0, Dim.fin 50, Dim.fin 60⟩ = true
          ∧ BoxConstraints.is_height_bounded ⟨0, 0, Dim.fin 50, Dim.fin 60⟩ = true) →
          Spinner.layout ⟨0, 0, Dim.fin 50, Dim.fin 60⟩ ⟨18⟩
            = BoxConstraints.constrain ⟨0, 0, Dim.fin 50, Dim.fin 60⟩ 18 18)
        ∧ BoxConstraints.fits ⟨0, 0, Dim.fin 50, Dim.fin 60⟩
            (Spinner.layout ⟨0, 0, Dim.fin 50, Dim.fin 60⟩ ⟨18⟩)) :=
  ⟨by decide, by decide,
   spinner_layout_characterization ⟨0, 0, Dim.fin 50, Dim.fin 60⟩ ⟨18⟩ (by decide) (by decide)⟩

/-- One `Spinner::on_event` call keeps the animation phase inside `[0, 1)`. -/
theorem Spinner.on_event_t_mem (s : Spinner) (e : Event)
    (h0 : 0 ≤ s.t) (h1 : s.t < 1) :
    0 ≤ (Spinner.on_event s e).t ∧ (Spinner.on_event s e).t < 1 := by
  cases e with
  | animFrame iv =>
      simp only [Spinner.on_event]
      by_cases hge : (1 : ℚ) ≤ s.t + (iv : ℚ) / 1000000000
      · simp [hge]
      · have hnonneg : 0 ≤ s.t + (iv : ℚ) / 1000000000 :=
          add_nonneg h0 (div_nonneg (Nat.cast_nonneg iv) (by norm_num))
        simp [hge, hnonneg, lt_of_not_le hge]
  | promiseResult r => exact ⟨h0, h1⟩
  | mouseMove => exact ⟨h0, h1⟩
  | keyDown => exact ⟨h0, h1⟩
  | windowConnected => exact ⟨h0, h1⟩
  | targetedCommand c => exact ⟨h0, h1⟩

/-- Any event sequence keeps the animation phase inside `[0, 1)`. -/
theorem spinner_foldl_t_mem (es : List Event) (s : Spinner)
    (h0 : 0 ≤ s.t) (h1 : s.t < 1) :
    0 ≤ (es.foldl Spinner.on_event s).t ∧ (es.foldl Spinner.on_event s).t < 1 := by
  induction es generalizing s with
  | nil => exact ⟨h0, h1⟩
  | cons e es ih =>
      obtain ⟨g0, g1⟩ := Spinner.on_event_t_mem s e h0 h1
      exact ih (Spinner.on_event s e) g0 g1

/-- C10: starting from `Spinner::default()`, after any sequence of events
the animation phase stays in `[0, 1)` — each animation frame adds
`interval * 1e-9` and resets the phase on reaching `1.0` — and every
non-`AnimFrame` event leaves the phase unchanged. -/
theorem spinner_anim_phase_invariant (es : List Event) :
    (0 ≤ (es.foldl Spinner.on_event Spinner.default).t
      ∧ (es.foldl Spinner.on_event Spinner.default).t < 1)
    ∧ ∀ (s : Spinner) (e : Event), (∀ iv, e ≠ Event.animFrame iv) →
        (Spinner.on_event s e).t = s.t := by
  constructor
  · exact spinner_foldl_t_mem es Spinner.default (le_refl 0) (by norm_num [Spinner.default])
  · intro s e he
    cases e with
    | animFrame iv => exact absurd rfl (he iv)
    | promiseResult r => rfl
    | mouseMove => rfl
    | keyDown => rfl
    | windowConnected => rfl
    | targetedCommand c => rfl

/-- Witness for C10: one half-second animation frame, plus a mouse move that
leaves the phase untouched. -/
theorem spinner_anim_phase_invariant_witness :
    (0 ≤ ([Event.animFrame 500000000].foldl Spinner.on_event Spinner.default).t
      ∧ ([Event.animFrame 500000000].foldl Spinner.on_event Spinner.default).t < 1)
    ∧ (∀ iv, Event.mouseMove ≠ Event.animFrame iv)
    ∧ (Spinner.on_event Spinner.default Event.mouseMove).t = Spinner.default.t :=
  ⟨(spinner_anim_phase_invariant [Event.animFrame 500000000]).1,
   fun _iv h => Event.noConfusion h,
   (spinner_anim_phase_invariant []).2 Spinner.default Event.mouseMove
     (fun _iv h => Event.noConfusion h)⟩

/-- C2 counterexample: with the handle lock poisoned and the queue lock
healthy, `submit_command` panics (the source calls `.unwrap()` on the handle
lock) instead of returning the `Err` that the claim requires whenever a lock
it takes is poisoned. -/
theorem ext_submit_claim_cex : ¬ extSubmitClaimC2 ⟨true, false⟩ [] 0 0 0 := by
  unfold extSubmitClaimC2
  decide

/-- C2 (amended): `submit_command` and `resolve_promise` panic exactly when
the handle lock is poisoned, return `Err(ExtEventError)` exactly when the
handle lock is healthy and the queue lock is poisoned, and otherwise return
`Ok(())` with the message appended to the shared queue; contention can never
make them fail. -/
theorem ext_submit_outcomes (locks : SinkLocks) (queue : List ExtMessage)
    (selector payload target : Nat) (result : PromiseResultData)
    (widget_id window_id : Nat) :
    (ExtEventSink.submit_command locks queue selector payload target
        = SubmitOutcome.panicked ↔ locks.handle_poisoned = true)
    ∧ (ExtEventSink.submit_command locks queue selector payload target
        = SubmitOutcome.err
        ↔ locks.handle_poisoned = false ∧ locks.queue_poisoned = true)
    ∧ (locks.handle_poisoned = false → locks.queue_poisoned = false →
        ExtEventSink.submit_command locks queue selector payload target
          = SubmitOutcome.ok (queue ++ [ExtMessage.command selector payload target]))
    ∧ (ExtEventSink.resolve_promise locks queue result widget_id window_id
        = SubmitOutcome.panicked ↔ locks.handle_poisoned = true)
    ∧ (ExtEventSink.resolve_promise locks queue result widget_id window_id
        = SubmitOutcome.err
        ↔ locks.handle_poisoned = false ∧ locks.queue_poisoned = true)
    ∧ (locks.handle_poisoned = false → locks.queue_poisoned = false →
        ExtEventSink.resolve_promise locks queue result widget_id window_id
          = SubmitOutcome.ok (queue ++ [ExtMessage.promise result widget_id window_id])) := by
  obtain ⟨hp, qp⟩ := locks
  cases hp <;> cases qp <;>
    simp [ExtEventSink.submit_command, ExtEventSink.resolve_promise]

/-- Witness for C2: with both locks healthy, both calls succeed and append
their message. -/
theorem ext_submit_outcomes_witness :
    ExtEventSink.submit_command ⟨false, false⟩ [] 1 2 3
      = SubmitOutcome.ok [ExtMessage.command 1 2 3]
    ∧ ExtEventSink.resolve_promise ⟨false, false⟩ [] ⟨7, ImageBuf.empty⟩ 4 5
      = SubmitOutcome.ok [ExtMessage.promise ⟨7, ImageBuf.empty⟩ 4 5] :=
  ⟨(ext_submit_outcomes ⟨false, false⟩ [] 1 2 3 ⟨7, ImageBuf.empty⟩ 4 5).2.2.1 rfl rfl,
   (ext_submit_outcomes ⟨false, false⟩ [] 1 2 3 ⟨7, ImageBuf.empty⟩ 4 5).2.2.2.2.2 rfl rfl⟩

/-- Draining by repeated `recv` returns the queue contents unchanged, in
order. -/
theorem ExtEventQueue.drain_all_id (q : List ExtMessage) :
    ExtEventQueue.drain_all q = q := by
  induction q with
  | nil => rfl
  | cons m rest ih => simp [ExtEventQueue.drain_all, ih]

/-- C9: successful submissions append at the back of the shared queue, the
drain via `recv` pops one message at a time from the front, and after two
submissions both messages are received in submission order before any
message submitted later. -/
theorem ext_queue_fifo (q : List ExtMessage) (m1 m2 : ExtMessage)
    (later : List ExtMessage) (selector payload target : Nat)
    (result : PromiseResultData) (widget_id window_id : Nat) :
    ExtEventSink.submit_command ⟨false, false⟩ q selector payload target
        = SubmitOutcome.ok (q ++ [ExtMessage.command selector payload target])
    ∧ ExtEventSink.resolve_promise ⟨false, false⟩ q result widget_id window_id
        = SubmitOutcome.ok (q ++ [ExtMessage.promise result widget_id window_id])
    ∧ ExtEventQueue.drain_all q
        = (match ExtEventQueue.recv q with
           | (some m, rest) => m :: ExtEventQueue.drain_all rest
           | (none, _) => [])
    ∧ ExtEventQueue.drain_all ((q ++ [m1, m2]) ++ later) = q ++ m1 :: m2 :: later := by
  refine ⟨rfl, rfl, ?_, ?_⟩
  · cases q <;> rfl
  · rw [ExtEventQueue.drain_all_id]
    simp

/-- C3 counterexample: with a dispatch behavior that re-enqueues every
command it handles, the drain loop of `post_event_stuff` never finishes: no
iteration count suffices, so no iteration cap exists in the code. -/
theorem harness_drain_no_cap_cex : ¬ harnessDrainClaimC3 (fun c => [c]) [0] := by
  have H : ∀ fuel, Harness.drain_commands (fun c => [c]) [0] fuel = none := by
    intro fuel
    induction fuel with
    | zero => rfl
    | succ n ih => simp [Harness.drain_commands, ih]
  rintro ⟨fuel, hf⟩
  rw [H fuel] at hf
  simp at hf

/-- On a successful drain, every command of the original queue is dispatched,
in FIFO order, before any command enqueued during the drain. -/
theorem harness_drain_fifo_front (d : Nat → List Nat) (a : List Nat) :
    ∀ (b : List Nat) (fuel : Nat) (tr : List Nat),
      Harness.drain_commands d (a ++ b) fuel = some tr → ∃ tr2, tr = a ++ tr2 := by
  induction a with
  | nil => exact fun b fuel tr h => ⟨tr, rfl⟩
  | cons c a ih =>
      intro b fuel tr h
      cases fuel with
      | zero => simp [Harness.drain_commands] at h
      | succ n =>
          rw [List.cons_append] at h
          simp only [Harness.drain_commands, Option.map_eq_some'] at h
          obtain ⟨tr0, h0, rfl⟩ := h
          rw [List.append_assoc] at h0
          obtain ⟨tr2, rfl⟩ := ih (b ++ d c) n tr0 h0
          exact ⟨tr2, rfl⟩

/-- C3 (amended): the drain loop pops and re-dispatches commands in FIFO
order until the queue is empty — when no dispatched command enqueues more,
exactly the initial queue is dispatched, in order, within `length` steps,
and any successful drain dispatches the whole initial queue first — but
there is no iteration cap (see the counterexample). -/
theorem harness_drain_to_fixpoint (dispatch : Nat → List Nat) (q : List Nat)
    (hquiet : ∀ c, dispatch c = []) (d : Nat → List Nat) (a b : List Nat)
    (fuel : Nat) (tr : List Nat)
    (hdrain : Harness.drain_commands d (a ++ b) fuel = some tr) :
    Harness.drain_commands dispatch q q.length = some q
    ∧ ∃ tr2, tr = a ++ tr2 := by
  constructor
  · induction q with
    | nil => rfl
    | cons c rest ih =>
        simp only [List.length_cons, Harness.drain_commands, hquiet c,
          List.append_nil, ih, Option.map_some']
  · exact harness_drain_fifo_front d a b fuel tr hdrain

/-- Witness for C3: a quiescent dispatch behavior drains `[4, 5]` in two
steps, and the successful drain of `[1] ++ [2]` dispatches `[1]` first. -/
theorem harness_drain_to_fixpoint_witness :
    (∀ c : Nat, (fun _ : Nat => ([] : List Nat)) c = [])
    ∧ Harness.drain_commands (fun _ => []) ([1] ++ [2]) 2 = some [1, 2]
    ∧ (Harness.drain_commands (fun _ => []) [4, 5] 2 = some [4, 5]
       ∧ ∃ tr2, [1, 2] = [1] ++ tr2) :=
  ⟨fun _ => rfl, rfl,
   harness_drain_to_fixpoint (fun _ => []) [4, 5] (fun _ => rfl)
     (fun _ => []) [1] [2] 2 [1, 2] rfl⟩

/-- C7: whenever `edit_root_widget` returns, the command queue has been
drained to empty, any descendant `needs_layout` flag set by the closure has
reached the root and triggered the layout pass (clearing the flag and
invalidating the window), and any descendant `needs_paint` flag set by the
closure is visible on the root — i.e. the synthetic post-edit
reconciliation pass ran before the call returned. -/
theorem harness_edit_root_reconciles (dispatch : Nat → List Nat) (fuel : Nat)
    (ops : List EditOp) (st final : AppState)
    (h : Harness.edit_root_widget dispatch fuel ops st = some final) :
    final.command_queue = []
    ∧ ((ops.foldl applyEditOp st).child_states.any (fun s => s.needs_layout) = true →
        final.root.needs_layout = false ∧ final.invalid_region_full = true)
    ∧ ((ops.foldl applyEditOp st).child_states.any (fun s => s.needs_paint) = true →
        final.root.needs_paint = true) := by
  simp only [Harness.edit_root_widget, Harness.post_event_stuff,
    Option.map_eq_some'] at h
  obtain ⟨tr, _, hfin⟩ := h
  set st1 := ops.foldl applyEditOp st with hst1
  by_cases hl : (WindowRoot.post_event_processing st1).root.needs_layout = true
  · rw [if_pos hl] at hfin
    subst hfin
    refine ⟨rfl, fun _ => ⟨rfl, rfl⟩, ?_⟩
    intro hp
    simp [WindowRoot.layout, WindowRoot.post_event_processing, hp]
  · rw [if_neg ?_] at hfin
    · subst hfin
      refine ⟨rfl, ?_, ?_⟩
      · intro hany
        exfalso
        apply hl
        simp [WindowRoot.post_event_processing, hany]
      · intro hp
        simp [WindowRoot.post_event_processing, hp]
    · exact hl

/-- Witness for C7: a closure that flags one child for layout and paint; the
edit call returns with the queue empty, the layout pass run, and the paint
flag on the root. -/
theorem harness_edit_root_reconciles_witness :
    Harness.edit_root_widget (fun _ => []) 0
        [EditOp.set_child_needs_layout 0, EditOp.set_child_needs_paint 0]
        ⟨⟨false, false, false⟩, [⟨false, false, false⟩], [], false⟩
      = some ⟨⟨false, true, false⟩, [⟨false, true, false⟩], [], true⟩
    ∧ ((⟨⟨false, true, false⟩, [⟨false, true, false⟩], [], true⟩ : AppState).command_queue = []
       ∧ (([EditOp.set_child_needs_layout 0, EditOp.set_child_needs_paint 0].foldl applyEditOp
              ⟨⟨false, false, false⟩, [⟨false, false, false⟩], [], false⟩).child_states.any
              (fun s => s.needs_layout) = true →
            (⟨⟨false, true, false⟩, [⟨false, true, false⟩], [], true⟩ : AppState).root.needs_layout
              = false
            ∧ (⟨⟨false, true, false⟩, [⟨false, true, false⟩], [], true⟩ : AppState).invalid_region_full
              = true)
       ∧ (([EditOp.set_child_needs_layout 0, EditOp.set_child_needs_paint 0].foldl applyEditOp
              ⟨⟨false, false, false⟩, [⟨false, false, false⟩], [], false⟩).child_states.any
              (fun s => s.needs_paint) = true →
            (⟨⟨false, true, false⟩, [⟨false, true, false⟩], [], true⟩ : AppState).root.needs_paint
              = true)) :=
  ⟨by decide,
   harness_edit_root_reconciles (fun _ => []) 0
     [EditOp.set_child_needs_layout 0, EditOp.set_child_needs_paint 0]
     ⟨⟨false, false, false⟩, [⟨false, false, false⟩], [], false⟩
     ⟨⟨false, true, false⟩, [⟨false, true, false⟩], [], true⟩ (by decide)⟩

mutual

theorem inspect_fresh_aux :
    ∀ s : TreeShape,
      Harness.inspect_widgets (fun st => st.children_changed) (buildFresh s) = true
  | .node cs => by
      simp [buildFresh, Harness.inspect_widgets, WidgetState.new,
        inspect_fresh_list_aux cs]

theorem inspect_fresh_list_aux :
    ∀ l : List TreeShape,
      Harness.inspect_widgets_list (fun st => st.children_changed) (buildFreshList l) = true
  | [] => rfl
  | t :: ts => by
      simp [buildFreshList, Harness.inspect_widgets_list,
        inspect_fresh_aux t, inspect_fresh_list_aux ts]

end

/-- C8: in a freshly constructed widget tree of any shape, the harness
inspection finds the `children_changed` flag set on every node. -/
theorem fresh_tree_children_changed (shape : TreeShape) :
    Harness.inspect_widgets (fun st => st.children_changed) (buildFresh shape) = true :=
  inspect_fresh_aux shape

/-- The fall-through child delivery leaves the parent widget's own fields
and the context flags unchanged. -/
theorem WebImage.deliver_to_child_fields (w : WebImage) (e : Event) :
    (WebImage.deliver_to_child w e).1.inner = w.inner
    ∧ (WebImage.deliver_to_child w e).1.image_promise = w.image_promise
    ∧ (WebImage.deliver_to_child w e).2 = EventCtxFx.none := by
  cases hw : w.inner <;> simp [WebImage.deliver_to_child, hw, Image.on_event]

/-- An event that is not a matching promise result leaves the WebImage's own
fields and the context flags unchanged. -/
theorem WebImage.on_event_stale (w : WebImage) (e : Event)
    (hm : ∀ r, e = Event.promiseResult r → r.token ≠ w.image_promise) :
    (WebImage.on_event w e).1.inner = w.inner
    ∧ (WebImage.on_event w e).1.image_promise = w.image_promise
    ∧ (WebImage.on_event w e).2 = EventCtxFx.none := by
  cases e with
  | promiseResult r =>
      have ht : r.try_get w.image_promise = none := by
        simp [PromiseResultData.try_get, hm r rfl]
      simpa [WebImage.on_event, ht] using WebImage.deliver_to_child_fields w (Event.promiseResult r)
  | mouseMove => simpa [WebImage.on_event] using WebImage.deliver_to_child_fields w Event.mouseMove
  | keyDown => simpa [WebImage.on_event] using WebImage.deliver_to_child_fields w Event.keyDown
  | windowConnected =>
      simpa [WebImage.on_event] using WebImage.deliver_to_child_fields w Event.windowConnected
  | animFrame iv =>
      simpa [WebImage.on_event] using WebImage.deliver_to_child_fields w (Event.animFrame iv)
  | targetedCommand c =>
      simpa [WebImage.on_event] using WebImage.deliver_to_child_fields w (Event.targetedCommand c)

/-- A whole event sequence without a matching promise result leaves the
WebImage's inner slot and stored token unchanged. -/
theorem WebImage.run_events_stale (w : WebImage) (es : List Event)
    (hm : ∀ e ∈ es, ∀ r : PromiseResultData,
        e = Event.promiseResult r → r.token ≠ w.image_promise) :
    (WebImage.run_events w es).inner = w.inner
    ∧ (WebImage.run_events w es).image_promise = w.image_promise := by
  induction es generalizing w with
  | nil => exact ⟨rfl, rfl⟩
  | cons e es ih =>
      have he := WebImage.on_event_stale w e
        (fun r hr => hm e (List.mem_cons_self e es) r hr)
      have ih2 := ih (WebImage.on_event w e).1
        (fun e2 he2 r hr => by
          rw [he.2.1]
          exact hm e2 (List.mem_cons_of_mem e he2) r hr)
      refine ⟨?_, ?_⟩
      · rw [WebImage.run_events, List.foldl_cons, ← WebImage.run_events, ih2.1, he.1]
      · rw [WebImage.run_events, List.foldl_cons, ← WebImage.run_events, ih2.2, he.2.1]

/-- C4: a fresh WebImage reports exactly its placeholder as its one child;
it still does after any event sequence that carries no promise result with
its stored token; and one `on_event` delivery of a promise result whose
token matches makes `children()` report exactly the loaded image content
built from the result's payload. -/
theorem web_image_children_transition (url : Nat) (es : List Event)
    (r : PromiseResultData)
    (hm : ∀ e ∈ es, ∀ rr : PromiseResultData, e = Event.promiseResult rr →
        rr.token ≠ (WebImage.new url).image_promise)
    (hr : r.token = (WebImage.run_events (WebImage.new url) es).image_promise) :
    WebImage.children (WebImage.new url) = [ChildRef.placeholder_child Spinner.default]
    ∧ (∃ p : Spinner, WebImage.children (WebImage.run_events (WebImage.new url) es)
        = [ChildRef.placeholder_child p])
    ∧ WebImage.children
        (WebImage.on_event (WebImage.run_events (WebImage.new url) es)
          (Event.promiseResult r)).1
      = [ChildRef.image_child (Image.new_contain r.payload)] := by
  obtain ⟨hinner, htoken⟩ := WebImage.run_events_stale (WebImage.new url) es hm
  have hinner0 : (WebImage.run_events (WebImage.new url) es).inner = none := by
    rw [hinner]; rfl
  refine ⟨rfl, ?_, ?_⟩
  · exact ⟨(WebImage.run_events (WebImage.new url) es).placeholder,
      by simp [WebImage.children, hinner0]⟩
  · have ht : r.try_get (WebImage.run_events (WebImage.new url) es).image_promise
        = some r.payload := by
      simp [PromiseResultData.try_get, hr]
    simp [WebImage.on_event, ht, WebImage.children]

/-- Witness for C4: one non-matching event, then a matching resolution whose
payload becomes the single child. -/
theorem web_image_children_transition_witness :
    (∀ e ∈ [Event.mouseMove], ∀ rr : PromiseResultData, e = Event.promiseResult rr →
        rr.token ≠ (WebImage.new 0).image_promise)
    ∧ PromiseResultData.token ⟨0, ⟨2, 3⟩⟩
        = (WebImage.run_events (WebImage.new 0) [Event.mouseMove]).image_promise
    ∧ (WebImage.children (WebImage.new 0) = [ChildRef.placeholder_child Spinner.default]
       ∧ (∃ p : Spinner, WebImage.children (WebImage.run_events (WebImage.new 0) [Event.mouseMove])
           = [ChildRef.placeholder_child p])
       ∧ WebImage.children
           (WebImage.on_event (WebImage.run_events (WebImage.new 0) [Event.mouseMove])
             (Event.promiseResult ⟨0, ⟨2, 3⟩⟩)).1
         = [ChildRef.image_child (Image.new_contain ⟨2, 3⟩)]) :=
  ⟨by intro e he rr hrr; simp at he; subst he; simp at hrr,
   by decide,
   web_image_children_transition 0 [Event.mouseMove] ⟨0, ⟨2, 3⟩⟩
     (by intro e he rr hrr; simp at he; subst he; simp at hrr)
     (by decide)⟩

/-- C5: the background closure scheduled by `WebImage::lifecycle` on
`WidgetAdded` is total — the scheduling widget always receives a value,
never an error variant: each of the three failure points (network get, body
read, decode) is converted to the fallback `ImageBuf::empty()`, and a fully
successful fetch delivers the decoded buffer. -/
theorem web_image_background_total (w : WebImage) (fresh_token : Nat)
    (world : FetchWorld) :
    (WebImage.lifecycle_widget_added w fresh_token).2 = WebImage.background_closure
    ∧ (WebImage.lifecycle_widget_added w fresh_token).1.image_promise = fresh_token
    ∧ (∀ err, world.get_response = Except.error err →
        WebImage.background_closure world = ImageBuf.empty)
    ∧ (∀ resp err, world.get_response = Except.ok resp →
        world.read_bytes resp = Except.error err →
        WebImage.background_closure world = ImageBuf.empty)
    ∧ (∀ resp body err, world.get_response = Except.ok resp →
        world.read_bytes resp = Except.ok body →
        world.decode body = Except.error err →
        WebImage.background_closure world = ImageBuf.empty)
    ∧ (∀ resp body buf, world.get_response = Except.ok resp →
        world.read_bytes resp = Except.ok body →
        world.decode body = Except.ok buf →
        WebImage.background_closure world = buf) := by
  refine ⟨rfl, rfl, ?_, ?_, ?_, ?_⟩ <;>
    { intros
      simp [WebImage.background_closure, load_image, *] }

/-- Witness for C5: a fetch whose decode step fails produces the empty
fallback image. -/
theorem web_image_background_total_witness :
    WebImage.background_closure
        ⟨Except.ok 1, fun _ => Except.ok [9], fun _ => Except.error 2⟩
      = ImageBuf.empty :=
  (web_image_background_total (WebImage.new 0) 1
      ⟨Except.ok 1, fun _ => Except.ok [9], fun _ => Except.error 2⟩).2.2.2.2.1
    1 [9] 2 rfl rfl rfl

/-- C6: delivering a `PromiseResult` whose token does not match the stored
promise token leaves the WebImage's own state unchanged — `inner` and the
stored token as they were — and the widget sets neither the
children-changed flag nor the skip-placeholder call; the stale token is
silently ignored. -/
theorem web_image_stale_token (w : WebImage) (r : PromiseResultData)
    (h : r.token ≠ w.image_promise) :
    (WebImage.on_event w (Event.promiseResult r)).1.inner = w.inner
    ∧ (WebImage.on_event w (Event.promiseResult r)).1.image_promise = w.image_promise
    ∧ (WebImage.on_event w (Event.promiseResult r)).2.children_changed = false
    ∧ (WebImage.on_event w (Event.promiseResult r)).2.skipped_placeholder = false := by
  obtain ⟨h1, h2, h3⟩ := WebImage.on_event_stale w (Event.promiseResult r)
    (fun rr hrr => by
      cases hrr
      exact h)
  exact ⟨h1, h2, by rw [h3]; rfl, by rw [h3]; rfl⟩

/-- Witness for C6: a result with token 1 delivered to a fresh widget whose
stored token is the empty token. -/
theorem web_image_stale_token_witness :
    (WebImage.on_event (WebImage.new 0) (Event.promiseResult ⟨1, ImageBuf.empty⟩)).1.inner
      = (WebImage.new 0).inner
    ∧ (WebImage.on_event (WebImage.new 0) (Event.promiseResult ⟨1, ImageBuf.empty⟩)).1.image_promise
      = (WebImage.new 0).image_promise
    ∧ (WebImage.on_event (WebImage.new 0) (Event.promiseResult ⟨1, ImageBuf.empty⟩)).2.children_changed
      = false
    ∧ (WebImage.on_event (WebImage.new 0) (Event.promiseResult ⟨1, ImageBuf.empty⟩)).2.skipped_placeholder
      = false :=
  web_image_stale_token (WebImage.new 0) ⟨1, ImageBuf.empty⟩ (by decide)

end Masonry
